import Mathlib

set_option maxRecDepth 8000

/-!
Shallow embedding of the human-in-the-loop inbox action loop of
`src/notebooks/module-3/email_assistant.py`.

The repository-authored logic embedded here:
* the sample inbox data (`SAMPLE_INBOX`),
* the agent state schema (`InboxState`: `inbox`, `processed_ids`, plus the
  `messages` channel the tools append `ToolMessage`s to),
* the four tools `check_inbox`, `read_email`, `reply_to_email`,
  `delete_email` (each tool returns a `Command` whose `update` is applied to
  the state by the runtime; we embed a tool directly as the state it leaves
  behind, with the returned `ToolMessage` appended to `messages`),
* the dynamic prompt `inbox_prompt` and its remaining-unprocessed count,
* the `__main__` decision loop: mapping operator console input to a
  decision dict (`choose_decision`), the per-argument edit override
  (`build_edited_args`), and the list of decisions actually passed to
  `Command(resume=...)` (`submitted_decisions`).

The application of a decision to the pending tool call is performed by the
imported `HumanInTheLoopMiddleware`, which is not part of this repository;
`resolve` models it from the spec (see its doc comment).
-/

structure Email where
  id : String
  sender : String
  subject : String
  body : String
deriving DecidableEq

/-- The `SAMPLE_INBOX` constant (the `from` field is `sender` here, since
`from` is a reserved word in Lean). -/
def SAMPLE_INBOX : List Email :=
  [ { id := "1", sender := "jane@example.com", subject := "Coffee this weekend?",
      body := "Hey! Are you free this Saturday for coffee? I found a great new café downtown. Let me know!" },
    { id := "2", sender := "boss@company.com", subject := "Q3 Report Review",
      body := "Hi, could you review the Q3 report and send me your comments by end of day Thursday? Thanks." },
    { id := "3", sender := "deals@spammy-cruises.biz", subject := "YOU WON A FREE CRUISE!!!",
      body := "Congratulations! You have been selected for a FREE luxury cruise. Click here to claim your prize now!!!" },
    { id := "4", sender := "mike@example.com", subject := "Hike on Sunday?",
      body := "Hey, a group of us are hiking the ridge trail this Sunday morning. Want to join? We are meeting at 8am at the trailhead." },
    { id := "5", sender := "hr@company.com", subject := "Mandatory Compliance Training Reminder",
      body := "This is a reminder that all employees must complete the annual compliance training module by Friday. Please log in to the training portal to complete it." } ]

/-- The `InboxState` schema: `inbox`, `processed_ids`, and the `messages`
channel that every tool `Command` appends its `ToolMessage` to. -/
structure InboxState where
  inbox : List Email
  processed_ids : List String
  messages : List String
deriving DecidableEq

/-- The two lines `processed_ids = list(runtime.state.get("processed_ids", []))`
followed by `processed_ids.append(email_id)`, shared verbatim by
`reply_to_email` and `delete_email` (the spec calls this `markProcessed`). -/
def markProcessed (processed_ids : List String) (email_id : String) : List String :=
  processed_ids ++ [email_id]

/-- The `f"Email with ID {email_id} not found."` tool message. -/
def not_found_message (email_id : String) : String :=
  "Email with ID " ++ email_id ++ " not found."

/-- One line of `check_inbox` output: the f-string interpolating status, id,
sender and subject. -/
def email_line (status : String) (email : Email) : String :=
  status ++ " ID:" ++ email.id ++ " From:" ++ email.sender ++ " Subject:" ++ email.subject

/-- The list `lines` built by the `for` loop of the `check_inbox` tool:
one line per inbox email, in inbox order, with status `[DONE]` when the id is
in `processed_ids` and `[NEW]` otherwise. -/
def check_inbox_lines (state : InboxState) : List String :=
  state.inbox.map (fun email =>
    email_line (if state.processed_ids.contains email.id then "[DONE]" else "[NEW]") email)

/-- The `check_inbox` tool: `"\n".join(lines)`; read-only, returns a plain
string (no `Command`), so it performs no state update. -/
def check_inbox (state : InboxState) : String :=
  String.intercalate "\n" (check_inbox_lines state)

/-- The `read_email` tool: full content of the first email with the given id,
or the not-found text. Read-only. -/
def read_email (email_id : String) (state : InboxState) : String :=
  match state.inbox.find? (fun e => e.id == email_id) with
  | some email =>
      "From: " ++ email.sender ++ "\n" ++ "Subject: " ++ email.subject ++ "\n" ++
        "Body: " ++ email.body
  | none => "Email with ID " ++ email_id ++ " not found."

/-- The `reply_to_email` tool. The source scans the inbox for the first email
with the given id to obtain `recipient`; when none exists it returns a
`Command` updating only `messages` with the not-found `ToolMessage`;
otherwise it returns a `Command` updating `processed_ids` (append) and
`messages` with `f"Reply sent to {recipient}: {body}"`. The inbox itself is
never part of the update. -/
def reply_to_email (email_id : String) (body : String) (state : InboxState) : InboxState :=
  match state.inbox.find? (fun e => e.id == email_id) with
  | none => { state with messages := state.messages ++ [not_found_message email_id] }
  | some email =>
      { state with
          processed_ids := markProcessed state.processed_ids email_id,
          messages := state.messages ++ ["Reply sent to " ++ email.sender ++ ": " ++ body] }

/-- The `delete_email` tool. The source computes
`found = any(email["id"] == email_id for email in inbox)`; when not found it
returns a `Command` updating only `messages`; otherwise it returns a
`Command` updating `processed_ids` (append) and `messages` with
`f"Email {email_id} deleted."`. The `inbox` field is not part of the update:
no record is removed. -/
def delete_email (email_id : String) (state : InboxState) : InboxState :=
  if state.inbox.any (fun e => e.id == email_id) then
    { state with
        processed_ids := markProcessed state.processed_ids email_id,
        messages := state.messages ++ ["Email " ++ email_id ++ " deleted."] }
  else
    { state with messages := state.messages ++ [not_found_message email_id] }

/-- `remaining = len([e for e in inbox if e["id"] not in processed_ids])`
from `inbox_prompt`. -/
def remaining_count (inbox : List Email) (processed_ids : List String) : Nat :=
  (inbox.filter (fun e => !(processed_ids.contains e.id))).length

/-- The prompt returned by `inbox_prompt` when `remaining == 0`. -/
def all_done_prompt : String :=
  "All emails have been processed. Let the user know you are done " ++
    "and summarize the actions you took."

/-- The fixed text before the interpolated `remaining` in the busy prompt. -/
def busy_prompt_head : String :=
  "You are an email assistant. There are "

/-- The fixed text after the interpolated `remaining` in the busy prompt. -/
def busy_prompt_tail : String :=
  " unprocessed email(s) in the inbox. " ++
    "Work through them one at a time: check the inbox, read each unprocessed email, " ++
    "then either reply or delete it. For spam or junk mail, delete it. " ++
    "For legitimate emails, draft a polite reply. " ++
    "Always use the reply_to_email or delete_email tools to take action — never just describe what you would do."

/-- The `inbox_prompt` dynamic-prompt middleware: the all-done prompt exactly
when `remaining == 0`, otherwise the busy prompt with `remaining`
interpolated. -/
def inbox_prompt (inbox : List Email) (processed_ids : List String) : String :=
  if remaining_count inbox processed_ids = 0 then all_done_prompt
  else busy_prompt_head ++ toString (remaining_count inbox processed_ids) ++ busy_prompt_tail

/-- One pending `ActionRequest` surfaced by the interrupt: tool name and
tool args (an association list in dict insertion order). -/
structure ActionRequest where
  name : String
  args : List (String × String)
deriving DecidableEq

/-- The decision dict built by the `__main__` loop:
`{"type": "approve"}`, `{"type": "reject", "message": reason}`, or
`{"type": "edit", "edited_action": {"name": ..., "args": ...}}`. -/
inductive Decision where
  | approve
  | reject (message : String)
  | edit (name : String) (args : List (String × String))
deriving DecidableEq

/-- Python `str.strip()` over the character list: drop leading and trailing
whitespace. (Structurally recursive, unlike `String.trim`, so that concrete
inputs evaluate inside the kernel; they agree on the ASCII inputs used here.) -/
def py_strip (s : String) : String :=
  ⟨((s.data.dropWhile Char.isWhitespace).reverse.dropWhile Char.isWhitespace).reverse⟩

/-- Python `str.lower()` over the character list: lowercase each character.
(Structurally recursive, unlike `String.toLower`, so that concrete inputs
evaluate inside the kernel; they agree on the ASCII inputs used here.) -/
def py_lower (s : String) : String :=
  ⟨s.data.map Char.toLower⟩

/-- The edit branch of the loop: `edited_args = dict(tool_args)`, then for
each key in order, `new_val = input(...).strip()`; a non-empty `new_val`
overwrites the entry, a blank one keeps the original. `inputs` models the
operator console input per key. Every key of `tool_args` is offered for
editing, `email_id` included. -/
def build_edited_args (tool_args : List (String × String))
    (inputs : String → String) : List (String × String) :=
  tool_args.map (fun kv =>
    if py_strip (inputs kv.1) = "" then kv else (kv.1, py_strip (inputs kv.1)))

/-- The decision selection of the `__main__` loop:
`choice = input(...).strip().lower()`, then `"a"` → approve, `"r"` → reject
with the (stripped) reason, `"e"` → edit with `build_edited_args`, and any
other input falls through to the `else` branch, which prints
`"Unrecognized choice, approving by default."` and picks approve. There is
no re-prompt. -/
def choose_decision (choice : String) (reason : String) (request : ActionRequest)
    (inputs : String → String) : Decision :=
  if py_lower (py_strip choice) = "a" then Decision.approve
  else if py_lower (py_strip choice) = "r" then Decision.reject (py_strip reason)
  else if py_lower (py_strip choice) = "e" then
    Decision.edit request.name (build_edited_args request.args inputs)
  else Decision.approve

/-- First value in the args dict under `key` (tool arguments are passed by
name to the tool). -/
def lookup_arg (args : List (String × String)) (key : String) : String :=
  ((args.find? (fun kv => kv.1 == key)).map Prod.snd).getD ""

/-- Dispatch of an applied tool call to the embedded tool bodies. -/
def apply_tool (name : String) (args : List (String × String))
    (state : InboxState) : InboxState :=
  if name = "reply_to_email" then
    reply_to_email (lookup_arg args "email_id") (lookup_arg args "body") state
  else if name = "delete_email" then
    delete_email (lookup_arg args "email_id") state
  else state

/-- Modelled from the spec: the application of a `Decision` to a pending
`ActionRequest` is performed by the imported `HumanInTheLoopMiddleware`
(`agent.invoke(Command(resume={"decisions": [...]}))`), which is not part of
this repository. Per the spec contract `Action Gate.resolve`: `approve` applies the
request as originally proposed, `edit(newArgs)` applies it with `args`
replaced by the edited args, `reject(reason)` applies nothing. -/
def resolve (state : InboxState) (request : ActionRequest)
    (decision : Decision) : InboxState :=
  match decision with
  | Decision.approve => apply_tool request.name request.args state
  | Decision.edit name args => apply_tool name args state
  | Decision.reject _ => state

/-- The decisions the `__main__` loop actually submits on resume. The `for`
loop over `action_requests` overwrites the single variable `decision` on
every iteration, and the resume call passes `{"decisions": [decision]}`: a
one-element list holding only the decision for the last request (empty when
there was no request). `decide_one` models the operator decision for each
presented request. -/
def submitted_decisions (requests : List ActionRequest)
    (decide_one : ActionRequest → Decision) : List Decision :=
  match (requests.map decide_one).getLast? with
  | some d => [d]
  | none => []

/-- Helper: boolean `List.contains` on ids agrees with membership. -/
theorem contains_eq_true_iff_mem (l : List String) (a : String) :
    l.contains a = true ↔ a ∈ l := by
  simp [List.contains_eq_any_beq]

/-- Helper: the busy prompt (length at least 371) is never the all-done
prompt (length 98), whatever the interpolated count. -/
theorem busy_prompt_ne_all_done (n : Nat) :
    busy_prompt_head ++ toString n ++ busy_prompt_tail ≠ all_done_prompt := by
  intro h
  have h2 := congrArg String.length h
  rw [String.length_append, String.length_append] at h2
  have hp : busy_prompt_head.length = 38 := by rfl
  have hs : busy_prompt_tail.length = 333 := by rfl
  have ha : all_done_prompt.length = 98 := by rfl
  omega

/-- Helper: a `[NEW]` status line and a `[DONE]` status line for the same
email differ (their lengths differ by one). -/
theorem email_line_new_ne_done (e : Email) :
    email_line "[NEW]" e ≠ email_line "[DONE]" e := by
  intro h
  have h2 := congrArg String.length h
  simp only [email_line, String.length_append] at h2
  have h5 : ("[NEW]" : String).length = 5 := by rfl
  have h6 : ("[DONE]" : String).length = 6 := by rfl
  omega

/-- Claim C1 (code bug, evaluated at the failing input): approving a delete
of email id 3 from the sample inbox adds 3 to `processed_ids` and reports
the email deleted, but the inbox is unchanged: `check_inbox` still lists
all 5 records, record 3 among them (now with `[DONE]` status) — the record
is not absent from the listing, contrary to the claim and to the tool
docstring `Delete an email from the inbox`. -/
theorem approved_delete_leaves_record_listed :
    "3" ∈ (resolve ⟨SAMPLE_INBOX, [], []⟩ ⟨"delete_email", [("email_id", "3")]⟩ Decision.approve).processed_ids ∧
    (resolve ⟨SAMPLE_INBOX, [], []⟩ ⟨"delete_email", [("email_id", "3")]⟩ Decision.approve).inbox = SAMPLE_INBOX ∧
    (resolve ⟨SAMPLE_INBOX, [], []⟩ ⟨"delete_email", [("email_id", "3")]⟩ Decision.approve).messages = ["Email 3 deleted."] ∧
    (check_inbox_lines (resolve ⟨SAMPLE_INBOX, [], []⟩ ⟨"delete_email", [("email_id", "3")]⟩ Decision.approve)).length = 5 ∧
    (check_inbox_lines (resolve ⟨SAMPLE_INBOX, [], []⟩ ⟨"delete_email", [("email_id", "3")]⟩ Decision.approve))[2]?
      = some (email_line "[DONE]"
          { id := "3", sender := "deals@spammy-cruises.biz", subject := "YOU WON A FREE CRUISE!!!",
            body := "Congratulations! You have been selected for a FREE luxury cruise. Click here to claim your prize now!!!" }) := by
  refine ⟨by decide, by rfl, by rfl, by rfl, by rfl⟩

/-- Claim C2, counterexample: marking the same id processed twice does not
leave the processed list unchanged — the second call appends a duplicate
entry. -/
theorem markProcessed_twice_changes_list :
    markProcessed (markProcessed [] "1") "1" ≠ markProcessed [] "1" := by decide

/-- Claim C2 as amended: `markProcessed` is idempotent only up to
membership — an id belongs to the processed list after marking twice
exactly when it belongs after marking once (the underlying list still gains
a duplicate entry, as the counterexample shows). -/
theorem markProcessed_twice_same_membership (l : List String) (i x : String) :
    x ∈ markProcessed (markProcessed l i) i ↔ x ∈ markProcessed l i := by
  simp [markProcessed]

/-- Claim C3, counterexample: the edit branch offers every argument for
editing, the target id included. Editing the `email_id` of a proposed
delete of record 1 to `3` is accepted, and the applied action processes
record 3, not record 1 — the target record id is editable, contrary to the
claim. -/
theorem edit_can_change_target_id :
    choose_decision "e" "" ⟨"delete_email", [("email_id", "1")]⟩
        (fun k => if k == "email_id" then "3" else "")
      = Decision.edit "delete_email" [("email_id", "3")] ∧
    (resolve ⟨SAMPLE_INBOX, [], []⟩ ⟨"delete_email", [("email_id", "1")]⟩
        (choose_decision "e" "" ⟨"delete_email", [("email_id", "1")]⟩
          (fun k => if k == "email_id" then "3" else ""))).processed_ids = ["3"] :=
  ⟨rfl, rfl⟩

/-- Claim C3 as amended: for an edit decision on a proposed reply, a blank
per-argument input keeps the original value (here the target id) and a
non-blank input substitutes the stripped new value (here the reply body):
the applied action records the edited body, not the original, and processes
the original target id. (Every argument is editable, the id included; the
claim holds only when the operator leaves the id input blank.) -/
theorem edit_applies_substituted_args (state : InboxState)
    (email_id orig_body new_body reason : String) (e : Email) (inputs : String → String)
    (hfind : state.inbox.find? (fun x => x.id == email_id) = some e)
    (hid : py_strip (inputs "email_id") = "")
    (hbody : py_strip (inputs "body") = new_body)
    (hnb : new_body ≠ "") :
    choose_decision "e" reason ⟨"reply_to_email", [("email_id", email_id), ("body", orig_body)]⟩ inputs
      = Decision.edit "reply_to_email" [("email_id", email_id), ("body", new_body)] ∧
    resolve state ⟨"reply_to_email", [("email_id", email_id), ("body", orig_body)]⟩
        (choose_decision "e" reason ⟨"reply_to_email", [("email_id", email_id), ("body", orig_body)]⟩ inputs)
      = { state with
            processed_ids := markProcessed state.processed_ids email_id,
            messages := state.messages ++ ["Reply sent to " ++ e.sender ++ ": " ++ new_body] } := by
  have hargs : build_edited_args [("email_id", email_id), ("body", orig_body)] inputs
      = [("email_id", email_id), ("body", new_body)] := by
    simp [build_edited_args, hid, hbody, hnb]
  have hc : choose_decision "e" reason
        ⟨"reply_to_email", [("email_id", email_id), ("body", orig_body)]⟩ inputs
      = Decision.edit "reply_to_email"
          (build_edited_args [("email_id", email_id), ("body", orig_body)] inputs) := rfl
  rw [hargs] at hc
  refine ⟨hc, ?_⟩
  rw [hc]
  show reply_to_email email_id new_body state = _
  unfold reply_to_email
  rw [hfind]

/-- Witness for the amended claim C3, at the scenario of the spec: edit the
reply to email 1 from `draft` to `Sounds great, see you Saturday!` with the
id input left blank. -/
theorem edit_applies_substituted_args_witness :
    ((⟨SAMPLE_INBOX, [], []⟩ : InboxState).inbox.find? (fun x => x.id == "1")
        = some { id := "1", sender := "jane@example.com", subject := "Coffee this weekend?",
                 body := "Hey! Are you free this Saturday for coffee? I found a great new café downtown. Let me know!" }) ∧
    py_strip ((fun k => if k == "body" then "Sounds great, see you Saturday!" else "") "email_id") = "" ∧
    py_strip ((fun k => if k == "body" then "Sounds great, see you Saturday!" else "") "body")
      = "Sounds great, see you Saturday!" ∧
    (choose_decision "e" "" ⟨"reply_to_email", [("email_id", "1"), ("body", "draft")]⟩
        (fun k => if k == "body" then "Sounds great, see you Saturday!" else "")
      = Decision.edit "reply_to_email" [("email_id", "1"), ("body", "Sounds great, see you Saturday!")] ∧
    resolve ⟨SAMPLE_INBOX, [], []⟩ ⟨"reply_to_email", [("email_id", "1"), ("body", "draft")]⟩
        (choose_decision "e" "" ⟨"reply_to_email", [("email_id", "1"), ("body", "draft")]⟩
          (fun k => if k == "body" then "Sounds great, see you Saturday!" else ""))
      = { inbox := SAMPLE_INBOX, processed_ids := ["1"],
          messages := ["Reply sent to jane@example.com: Sounds great, see you Saturday!"] }) :=
  ⟨by rfl, by rfl, by rfl,
    edit_applies_substituted_args ⟨SAMPLE_INBOX, [], []⟩ "1" "draft"
      "Sounds great, see you Saturday!" ""
      { id := "1", sender := "jane@example.com", subject := "Coffee this weekend?",
        body := "Hey! Are you free this Saturday for coffee? I found a great new café downtown. Let me know!" }
      (fun k => if k == "body" then "Sounds great, see you Saturday!" else "")
      (by rfl) (by rfl) (by rfl) (by decide)⟩

/-- Claim C4, counterexample: on the unrecognized decision input `x` for a
proposed delete, the loop does not re-prompt — the else branch picks
approve and the destructive delete proceeds (record 3 gets processed). -/
theorem unrecognized_choice_proceeds_with_approve :
    choose_decision "x" "" ⟨"delete_email", [("email_id", "3")]⟩ (fun _ => "") = Decision.approve ∧
    (resolve ⟨SAMPLE_INBOX, [], []⟩ ⟨"delete_email", [("email_id", "3")]⟩
        (choose_decision "x" "" ⟨"delete_email", [("email_id", "3")]⟩ (fun _ => ""))).processed_ids = ["3"] := by
  refine ⟨by rfl, by rfl⟩

/-- Claim C4 as amended: every decision input whose stripped, lowercased
form is none of `a`, `r`, `e` falls through to the else branch, which
selects approve (printing `Unrecognized choice, approving by default.`);
there is no re-prompt. -/
theorem unrecognized_choice_fallback_approve (choice reason : String)
    (request : ActionRequest) (inputs : String → String)
    (ha : py_lower (py_strip choice) ≠ "a") (hr : py_lower (py_strip choice) ≠ "r")
    (he : py_lower (py_strip choice) ≠ "e") :
    choose_decision choice reason request inputs = Decision.approve := by
  unfold choose_decision
  rw [if_neg ha, if_neg hr, if_neg he]

/-- Witness for the amended claim C4 at the concrete input `x`. -/
theorem unrecognized_choice_fallback_approve_witness :
    (py_lower (py_strip "x") ≠ "a") ∧ (py_lower (py_strip "x") ≠ "r") ∧ (py_lower (py_strip "x") ≠ "e") ∧
    choose_decision "x" "why" ⟨"delete_email", [("email_id", "3")]⟩ (fun _ => "") = Decision.approve :=
  ⟨by decide, by decide, by decide,
    unrecognized_choice_fallback_approve "x" "why" ⟨"delete_email", [("email_id", "3")]⟩ (fun _ => "")
      (by decide) (by decide) (by decide)⟩

/-- Claim C5 (code bug, evaluated at the failing input): for an interrupt
batch of two pending requests (a reply the operator approves, then a delete
the operator rejects), the loop resumes with a one-element decisions list
holding only the decision of the last request; the approve collected for
the first request is never submitted. -/
theorem batch_submits_only_last_decision :
    submitted_decisions
        [ { name := "reply_to_email", args := [("email_id", "1"), ("body", "hi")] },
          { name := "delete_email", args := [("email_id", "3")] } ]
        (fun r => if r.name == "reply_to_email" then Decision.approve else Decision.reject "spam")
      = [Decision.reject "spam"] ∧
    (submitted_decisions
        [ { name := "reply_to_email", args := [("email_id", "1"), ("body", "hi")] },
          { name := "delete_email", args := [("email_id", "3")] } ]
        (fun r => if r.name == "reply_to_email" then Decision.approve else Decision.reject "spam")).length ≠ 2 ∧
    Decision.approve ∉ submitted_decisions
        [ { name := "reply_to_email", args := [("email_id", "1"), ("body", "hi")] },
          { name := "delete_email", args := [("email_id", "3")] } ]
        (fun r => if r.name == "reply_to_email" then Decision.approve else Decision.reject "spam") := by
  refine ⟨by rfl, by decide, by decide⟩

/-- Claim C6: when no inbox record has the target id, `reply_to_email` and
`delete_email` both return the not-found text as an ordinary tool message —
the resulting state keeps `inbox` and `processed_ids` exactly as they were,
with only the message appended. -/
theorem not_found_is_normal_result_no_mutation (state : InboxState) (email_id body : String)
    (h : ∀ e ∈ state.inbox, e.id ≠ email_id) :
    reply_to_email email_id body state =
      { state with messages := state.messages ++ [not_found_message email_id] } ∧
    delete_email email_id state =
      { state with messages := state.messages ++ [not_found_message email_id] } := by
  have hfind : state.inbox.find? (fun e => e.id == email_id) = none := by
    apply List.find?_eq_none.mpr
    intro e he
    simpa using h e he
  have hany : state.inbox.any (fun e => e.id == email_id) = false := by
    rw [List.any_eq_false]
    intro e he
    simpa using h e he
  constructor
  · unfold reply_to_email
    rw [hfind]
  · unfold delete_email
    rw [hany]
    simp

/-- Witness for claim C6: id 99 matches no sample record; both tools leave
the store untouched and report not-found. -/
theorem not_found_is_normal_result_no_mutation_witness :
    (∀ e ∈ SAMPLE_INBOX, e.id ≠ "99") ∧
    (reply_to_email "99" "hello" ⟨SAMPLE_INBOX, [], []⟩ =
      { inbox := SAMPLE_INBOX, processed_ids := [], messages := ["Email with ID 99 not found."] } ∧
    delete_email "99" ⟨SAMPLE_INBOX, [], []⟩ =
      { inbox := SAMPLE_INBOX, processed_ids := [], messages := ["Email with ID 99 not found."] }) :=
  ⟨by decide, not_found_is_normal_result_no_mutation ⟨SAMPLE_INBOX, [], []⟩ "99" "hello" (by decide)⟩

/-- Claim C7: the reject branch of the loop builds a reject decision
carrying the stripped reason, and resolving any pending request with it
leaves the whole state (inbox, processed ids, messages) unchanged — the
reason is informational only. -/
theorem reject_decision_no_mutation (state : InboxState) (request : ActionRequest)
    (reason : String) (inputs : String → String) :
    choose_decision "r" reason request inputs = Decision.reject (py_strip reason) ∧
    resolve state request (choose_decision "r" reason request inputs) = state :=
  ⟨rfl, rfl⟩

/-- Helper for claim C8: with pairwise-distinct inbox ids, the unprocessed
count plus the size of the intersection of the id set with the processed
set is the inbox size. -/
theorem remaining_plus_processed (proc : List String) :
    ∀ inbox : List Email, (inbox.map Email.id).Nodup →
      remaining_count inbox proc
        + ((inbox.map Email.id).toFinset ∩ proc.toFinset).card = inbox.length := by
  intro inbox
  induction inbox with
  | nil => intro _; simp [remaining_count]
  | cons e t ih =>
    intro hnodup
    rw [List.map_cons, List.nodup_cons] at hnodup
    obtain ⟨hnotin, hnd⟩ := hnodup
    have ih2 := ih hnd
    by_cases hc : e.id ∈ proc
    · have hrc : remaining_count (e :: t) proc = remaining_count t proc := by
        simp [remaining_count, hc]
      rw [hrc, List.map_cons, List.toFinset_cons,
        Finset.insert_inter_of_mem (List.mem_toFinset.mpr hc),
        Finset.card_insert_of_not_mem
          (fun hmem => hnotin (List.mem_toFinset.mp (Finset.mem_inter.mp hmem).1))]
      simp only [List.length_cons]
      omega
    · have hrc : remaining_count (e :: t) proc = remaining_count t proc + 1 := by
        simp [remaining_count, hc]
      rw [hrc, List.map_cons, List.toFinset_cons,
        Finset.insert_inter_of_not_mem (fun hmem => hc (List.mem_toFinset.mp hmem))]
      simp only [List.length_cons]
      omega

/-- Claim C8: for inboxes with pairwise-distinct ids (the Store invariant),
the remaining-work count computed by `inbox_prompt` equals the inbox size
minus the size of the intersection of the inbox id set with the processed
set, and the all-done prompt is selected exactly when that count is 0.
`remaining_count` is a pure function of the inbox and the processed list. -/
theorem remaining_count_formula_and_done_prompt (inbox : List Email) (proc : List String)
    (hnodup : (inbox.map Email.id).Nodup) :
    remaining_count inbox proc
      = inbox.length - ((inbox.map Email.id).toFinset ∩ proc.toFinset).card ∧
    (inbox_prompt inbox proc = all_done_prompt ↔ remaining_count inbox proc = 0) := by
  have key := remaining_plus_processed proc inbox hnodup
  refine ⟨by omega, ?_⟩
  unfold inbox_prompt
  by_cases h0 : remaining_count inbox proc = 0
  · rw [if_pos h0]
    simp [h0]
  · rw [if_neg h0]
    exact ⟨fun hEq => absurd hEq (busy_prompt_ne_all_done _), fun hh => absurd hh h0⟩

/-- Witness for claim C8 on the sample inbox with record 3 processed. -/
theorem remaining_count_formula_and_done_prompt_witness :
    (SAMPLE_INBOX.map Email.id).Nodup ∧
    (remaining_count SAMPLE_INBOX ["3"]
      = SAMPLE_INBOX.length - ((SAMPLE_INBOX.map Email.id).toFinset ∩ (["3"] : List String).toFinset).card ∧
    (inbox_prompt SAMPLE_INBOX ["3"] = all_done_prompt ↔ remaining_count SAMPLE_INBOX ["3"] = 0)) :=
  ⟨by decide, remaining_count_formula_and_done_prompt SAMPLE_INBOX ["3"] (by decide)⟩

/-- Claim C9: `check_inbox` lists one line per inbox record, in inbox
order; the line of the record at position i carries status `[NEW]` exactly
when its id is not among the processed ids, and `[DONE]` exactly when it
is. (The tool is a pure function returning a string — it performs no state
update.) -/
theorem check_inbox_order_and_status (state : InboxState) (i : Nat) (e : Email)
    (hget : state.inbox[i]? = some e) :
    (check_inbox_lines state).length = state.inbox.length ∧
    ((check_inbox_lines state)[i]? = some (email_line "[NEW]" e) ↔
      e.id ∉ state.processed_ids) ∧
    ((check_inbox_lines state)[i]? = some (email_line "[DONE]" e) ↔
      e.id ∈ state.processed_ids) := by
  have hlen : (check_inbox_lines state).length = state.inbox.length := by
    simp [check_inbox_lines]
  have hmap : (check_inbox_lines state)[i]?
      = some (email_line (if state.processed_ids.contains e.id then "[DONE]" else "[NEW]") e) := by
    rw [check_inbox_lines, List.getElem?_map, hget]
    rfl
  by_cases hc : e.id ∈ state.processed_ids
  · have hb : state.processed_ids.contains e.id = true := (contains_eq_true_iff_mem _ _).mpr hc
    rw [hb] at hmap
    simp only [if_pos rfl] at hmap
    refine ⟨hlen, ?_, ?_⟩
    · constructor
      · intro hEq
        rw [hmap] at hEq
        exact absurd (Option.some.inj hEq).symm (email_line_new_ne_done e)
      · intro hn
        exact absurd hc hn
    · exact ⟨fun _ => hc, fun _ => hmap⟩
  · have hb : state.processed_ids.contains e.id = false := by
      rw [Bool.eq_false_iff]
      intro hx
      exact hc ((contains_eq_true_iff_mem _ _).mp hx)
    rw [hb] at hmap
    simp only [Bool.false_eq_true, if_false] at hmap
    refine ⟨hlen, ?_, ?_⟩
    · exact ⟨fun _ => hc, fun _ => hmap⟩
    · constructor
      · intro hEq
        rw [hmap] at hEq
        exact absurd (Option.some.inj hEq) (email_line_new_ne_done e)
      · intro hin
        exact absurd hin hc

/-- Witness for claim C9: with record 3 processed, position 2 of the sample
listing carries the `[DONE]` line for the spam record. -/
theorem check_inbox_order_and_status_witness :
    ((⟨SAMPLE_INBOX, ["3"], []⟩ : InboxState).inbox[2]?
        = some { id := "3", sender := "deals@spammy-cruises.biz", subject := "YOU WON A FREE CRUISE!!!",
                 body := "Congratulations! You have been selected for a FREE luxury cruise. Click here to claim your prize now!!!" }) ∧
    ((check_inbox_lines ⟨SAMPLE_INBOX, ["3"], []⟩).length = (⟨SAMPLE_INBOX, ["3"], []⟩ : InboxState).inbox.length ∧
    ((check_inbox_lines ⟨SAMPLE_INBOX, ["3"], []⟩)[2]?
        = some (email_line "[NEW]"
            { id := "3", sender := "deals@spammy-cruises.biz", subject := "YOU WON A FREE CRUISE!!!",
              body := "Congratulations! You have been selected for a FREE luxury cruise. Click here to claim your prize now!!!" }) ↔
      ({ id := "3", sender := "deals@spammy-cruises.biz", subject := "YOU WON A FREE CRUISE!!!",
         body := "Congratulations! You have been selected for a FREE luxury cruise. Click here to claim your prize now!!!" } : Email).id
        ∉ (⟨SAMPLE_INBOX, ["3"], []⟩ : InboxState).processed_ids) ∧
    ((check_inbox_lines ⟨SAMPLE_INBOX, ["3"], []⟩)[2]?
        = some (email_line "[DONE]"
            { id := "3", sender := "deals@spammy-cruises.biz", subject := "YOU WON A FREE CRUISE!!!",
              body := "Congratulations! You have been selected for a FREE luxury cruise. Click here to claim your prize now!!!" }) ↔
      ({ id := "3", sender := "deals@spammy-cruises.biz", subject := "YOU WON A FREE CRUISE!!!",
         body := "Congratulations! You have been selected for a FREE luxury cruise. Click here to claim your prize now!!!" } : Email).id
        ∈ (⟨SAMPLE_INBOX, ["3"], []⟩ : InboxState).processed_ids)) :=
  ⟨by rfl,
    check_inbox_order_and_status ⟨SAMPLE_INBOX, ["3"], []⟩ 2
      { id := "3", sender := "deals@spammy-cruises.biz", subject := "YOU WON A FREE CRUISE!!!",
        body := "Congratulations! You have been selected for a FREE luxury cruise. Click here to claim your prize now!!!" }
      (by rfl)⟩

/-- Claim C10: no operation changes the inbox collection itself — the reply
tool, the delete tool, and the resolution of any decision (approve, reject
or edit) all leave the `inbox` field exactly as it was, so the set and
order of records are constant for the session. -/
theorem inbox_collection_constant (state : InboxState) (email_id body : String)
    (request : ActionRequest) (decision : Decision) :
    (reply_to_email email_id body state).inbox = state.inbox ∧
    (delete_email email_id state).inbox = state.inbox ∧
    (resolve state request decision).inbox = state.inbox := by
  have hr : ∀ i b, (reply_to_email i b state).inbox = state.inbox := by
    intro i b
    unfold reply_to_email
    cases state.inbox.find? (fun e => e.id == i) <;> rfl
  have hd : ∀ i, (delete_email i state).inbox = state.inbox := by
    intro i
    unfold delete_email
    by_cases h : state.inbox.any (fun e => e.id == i) = true <;> simp [h]
  have hap : ∀ n args, (apply_tool n args state).inbox = state.inbox := by
    intro n args
    unfold apply_tool
    split
    · exact hr _ _
    · split
      · exact hd _
      · rfl
  refine ⟨hr _ _, hd _, ?_⟩
  cases decision with
  | approve => exact hap _ _
  | reject m => rfl
  | edit n a => exact hap _ _
